import Mathlib

/-!
Verification of the external-provider chat dispatch, provider-configuration
store, credential resolution, image-generation artifact layout and the
sensitive-data redactor of the Faye-Blade Qwencode/Venice/GitKraken
integration layer.

The Python modules are shallowly embedded: dictionaries become ordered
association lists (Python dicts preserve insertion order), Python truthiness
tests on strings become explicit emptiness checks, fallible paths return
`Except`/`Option`, and the single outward HTTP POST of the chat dispatcher is
abstracted into a `ChatOutcome.request` constructor so that "no network call
was made" is expressible as "the result is a `ChatOutcome.fail`".
-/

namespace QwenVenice

/-- Character constants — apostrophe, dollar, braces — rendered via code
points to keep the embedding free of delicate literals. -/
def squote : String := String.singleton (Char.ofNat 39)

def dollarChar : Char := Char.ofNat 36

def openBraceChar : Char := Char.ofNat 123

def closeBraceChar : Char := Char.ofNat 125

/-- Python `repr` of a list of strings, as interpolated into f-string error
messages: a bracketed, comma-separated list of single-quoted entries. -/
def commaSepRepr : List String → String
  | [] => ""
  | [s] => squote ++ s ++ squote
  | s :: rest => squote ++ s ++ squote ++ ", " ++ commaSepRepr rest

def reprStrList (l : List String) : String :=
  "[" ++ commaSepRepr l ++ "]"

/-- One entry of a provider record's `models` list
(`external_api_integrator.py`): only its `id` field is consulted by
`chat_completion` (line 227). -/
structure ChatModel where
  id : String
deriving DecidableEq, Repr

/-- One provider record from the YAML configuration
(`external_api_integrator.py`): the fields read by the integrator.
`base_url` is `none` when that key is absent from the record dict;
`api_keys` is `none` when that key is absent, otherwise the ordered
key-type/value mapping. -/
structure Provider where
  id : Option String
  base_url : Option String
  api_keys : Option (List (String × String))
  models : List ChatModel
deriving DecidableEq, Repr

/-- The store `self.providers`: a Python dict keyed by provider id, modelled as an
ordered association list. -/
abbrev Store := List (String × Provider)

/-- The process environment (`os.environ`), as an association list. -/
abbrev EnvMap := List (String × String)

def envGet (env : EnvMap) (name : String) : Option String :=
  (List.find? (fun kv => kv.1 = name) env).map Prod.snd

/-- Embeds `get_provider_info` (`external_api_integrator.py` lines 107-117):
`self.providers.get(provider_id)`. -/
def get_provider_info (st : Store) (provider_id : String) : Option Provider :=
  (List.find? (fun kv => kv.1 = provider_id) st).map Prod.snd

/-- Embeds `get_available_providers` (lines 99-105): `list(self.providers.keys())`. -/
def get_available_providers (st : Store) : List String :=
  st.map Prod.fst

/-- Embeds `get_provider_models` (lines 119-133): the provider's `models` list, or
`[]` when the provider is absent. -/
def get_provider_models (st : Store) (provider_id : String) : List ChatModel :=
  match get_provider_info st provider_id with
  | none => []
  | some p => p.models

/-- The loop of `get_default_provider_api_key` (lines 154-162): return the
value as soon as the key-type is `openai` OR the value is non-empty
(Python truthy); otherwise keep scanning. -/
def firstApiKey : List (String × String) → Option String
  | [] => none
  | (key_type, key_value) :: rest =>
    if key_type = "openai" then some key_value
    else if key_value ≠ "" then some key_value
    else firstApiKey rest

/-- Embeds `get_default_provider_api_key` (lines 135-162). -/
def get_default_provider_api_key (st : Store) (provider_id : String) :
    Option String :=
  match get_provider_info st provider_id with
  | none => none
  | some provider_info =>
    match provider_info.api_keys with
    | none => none
    | some api_keys => firstApiKey api_keys

/-- Error strings produced by `chat_completion`. -/
def providerNotFoundMsg (provider_id : String) : String :=
  "Provider " ++ provider_id ++ " not found in configuration"

def noBaseUrlMsg (provider_id : String) : String :=
  "No base_url found for provider " ++ provider_id

def noApiKeyMsg (provider_id : String) : String :=
  "No API key found for provider " ++ provider_id

def envNotSetMsg (name : String) : String :=
  "Environment variable " ++ name ++ " for API key not set"

def modelNotFoundMsg (model_id provider_id : String)
    (available : List String) : String :=
  "Model " ++ model_id ++ " not available for provider " ++ provider_id ++
    ". Available: " ++ reprStrList available

/-- The API-key placeholder resolution inside `chat_completion`
(lines 214-224): a value starting with the two characters `$`-open-brace and
ending with close-brace names an environment variable (the slice `[2:-1]`);
an unset or empty variable is a distinct failure; any other value is the
literal secret. -/
def resolve_api_key (env : EnvMap) (placeholder : String) :
    Except String String :=
  if placeholder.data.take 2 = [dollarChar, openBraceChar] ∧
      placeholder.data.getLast? = some closeBraceChar then
    let name : String := String.mk ((placeholder.data.drop 2).dropLast)
    match envGet env name with
    | some v => if v = "" then Except.error (envNotSetMsg name)
                else Except.ok v
    | none => Except.error (envNotSetMsg name)
  else Except.ok placeholder

/-- Outcome of `chat_completion` up to the network boundary: either a
structured failure result returned before any HTTP request is issued
(success false together with an error string), or the embedded HTTP-request effect
invoked with the resolved URL, bearer credential and model id. -/
inductive ChatOutcome where
  | fail (error : String)
  | request (url : String) (api_key : String) (model : String)
deriving DecidableEq, Repr

/-- Embeds `chat_completion` (lines 164-256) up to the `requests.post` call:
provider lookup, `base_url` truthiness check, default-key lookup and
truthiness check, environment-placeholder resolution, model validation, and
finally the POST to `{base_url}/chat/completions`. -/
def chat_completion (env : EnvMap) (st : Store)
    (provider_id model_id : String) : ChatOutcome :=
  match get_provider_info st provider_id with
  | none => ChatOutcome.fail (providerNotFoundMsg provider_id)
  | some provider_info =>
    match provider_info.base_url with
    | none => ChatOutcome.fail (noBaseUrlMsg provider_id)
    | some base_url =>
      if base_url = "" then ChatOutcome.fail (noBaseUrlMsg provider_id)
      else
        match get_default_provider_api_key st provider_id with
        | none => ChatOutcome.fail (noApiKeyMsg provider_id)
        | some api_key_placeholder =>
          if api_key_placeholder = "" then
            ChatOutcome.fail (noApiKeyMsg provider_id)
          else
            match resolve_api_key env api_key_placeholder with
            | Except.error e => ChatOutcome.fail e
            | Except.ok api_key =>
              let available := (get_provider_models st provider_id).map
                (fun m => m.id)
              if model_id ∈ available then
                ChatOutcome.request (base_url ++ "/chat/completions")
                  api_key model_id
              else
                ChatOutcome.fail
                  (modelNotFoundMsg model_id provider_id available)

/-- A stored credential value that is exactly the placeholder form
`$`-open-brace, NAME, close-brace. -/
def mkPlaceholder (name : String) : String :=
  String.mk (dollarChar :: openBraceChar :: (name.data ++ [closeBraceChar]))

example : chat_completion [] [] "venice" "m" =
    ChatOutcome.fail "Provider venice not found in configuration" := by rfl

example : resolve_api_key [("FOO", "bar123")] (mkPlaceholder "FOO") =
    Except.ok "bar123" := by rfl

example : resolve_api_key [] (mkPlaceholder "FOO") =
    Except.error "Environment variable FOO for API key not set" := by rfl

example : firstApiKey [("venice_legacy", "x"), ("openai", "y")] =
    some "x" := by rfl

/-! ### Provider-configuration loading (`load_providers_from_config`) -/

/-- One element of the parsed top-level providers list.
`record p` is a mapping record whose id lookup evaluates to `p.id`;
`bad` is an element on which the id lookup raises (e.g. the element
is not a mapping), aborting the loop into the `except` handler. -/
inductive RawRecord where
  | record (p : Provider)
  | bad
deriving DecidableEq, Repr

def RawRecord.isBad : RawRecord → Bool
  | RawRecord.bad => true
  | RawRecord.record _ => false

/-- The input presented to `load_providers_from_config` (lines 70-97):
the path is missing or the file does not exist; opening/parsing the YAML
raises (including a document with no mapping at top level); or the parse
succeeded, with `providersKey` the content of the top-level `providers` key
(`none` when the key is absent). -/
inductive LoadInput where
  | missing
  | parseError
  | parsed (providersKey : Option (List RawRecord))

/-- Python dict assignment `self.providers[provider_id] = provider`: an
existing key keeps its position and gets the new value; a new key is
appended. -/
def dictInsert (st : Store) (k : String) (p : Provider) : Store :=
  if (List.find? (fun kv => kv.1 = k) st).isSome then
    st.map (fun kv => if kv.1 = k then (k, p) else kv)
  else st ++ [(k, p)]

/-- The record loop of `load_providers_from_config` (lines 87-91): records
with a falsy id (`None` or empty) are skipped; a raising element aborts into
the `except` handler, which returns `False` WITHOUT undoing the insertions
already performed. -/
def loadLoop (st : Store) : List RawRecord → Bool × Store
  | [] => (true, st)
  | RawRecord.bad :: _ => (false, st)
  | RawRecord.record p :: rest =>
    match p.id with
    | none => loadLoop st rest
    | some pid =>
      if pid = "" then loadLoop st rest
      else loadLoop (dictInsert st pid p) rest

/-- Embeds `load_providers_from_config` (lines 70-97) as a transformer of the
`self.providers` store: returns the boolean result together with the store
it leaves behind. -/
def load_providers_from_config (st : Store) : LoadInput → Bool × Store
  | LoadInput.missing => (false, st)
  | LoadInput.parseError => (false, st)
  | LoadInput.parsed none => (false, st)
  | LoadInput.parsed (some records) => loadLoop st records

/-- The store produced by folding the insertions of the non-skipped records
of a list, used to characterise partial population. -/
def insertGoodRecords (st : Store) (records : List RawRecord) : Store :=
  records.foldl
    (fun s r =>
      match r with
      | RawRecord.record p =>
        match p.id with
        | none => s
        | some pid => if pid = "" then s else dictInsert s pid p
      | RawRecord.bad => s)
    st

/-! ### Image generation (`venice_integration.py`,
`enhanced_venice_integration.py`) -/

/-- Embeds `_size_from_aspect` (lines 429-443): the `aspect_to_size` table, with
an unknown aspect raising `ValueError` listing the valid choices. -/
def _size_from_aspect (aspect : String) : Except String (Nat × Nat) :=
  if aspect = "square" then Except.ok (1024, 1024)
  else if aspect = "tall" then Except.ok (768, 1024)
  else if aspect = "wide" then Except.ok (1024, 768)
  else Except.error ("Invalid aspect ratio: " ++ aspect ++ ". Choose from " ++
    reprStrList ["square", "tall", "wide"])

/-- Embeds `_effective_dims` (lines 519-535): explicit width AND height (both
non-`None` and non-zero, Python truthiness) pass through; otherwise the
named aspect ratio decides. -/
def _effective_dims (aspect : String) (width height : Option Nat) :
    Except String (Nat × Nat) :=
  match width, height with
  | some w, some h =>
    if w ≠ 0 ∧ h ≠ 0 then Except.ok (w, h) else _size_from_aspect aspect
  | some w, none => let _ := w; _size_from_aspect aspect
  | none, some h => let _ := h; _size_from_aspect aspect
  | none, none => _size_from_aspect aspect

/-- The dimension bookkeeping of `generate_image`
(`venice_integration.py` lines 612-628 and 693-715, identical in
`enhanced_venice_integration.py` lines 479-495 and 559-582): the request
body `data` carries the resolved `w, h`, while the metadata record's
`request_params` carries the raw `width`, `height` arguments. -/
structure GenDims where
  requestWidth : Nat
  requestHeight : Nat
  metaWidth : Option Nat
  metaHeight : Option Nat
deriving DecidableEq, Repr

def generate_image_dims (aspect : String) (width height : Option Nat) :
    Except String GenDims :=
  match _effective_dims aspect width height with
  | Except.error e => Except.error e
  | Except.ok (w, h) =>
    Except.ok { requestWidth := w, requestHeight := h,
                metaWidth := width, metaHeight := height }

/-- The filename stem of `generate_image` (lines 682-686):
`{output_name or default}_{seed_tag}_{ts_short}_1` where `ts_short` is the
UTC time at second granularity (`"%Y%m%d_%H%M%S"`) and the seed tag is
`s{seed}` or `rnd`. -/
def seedTag : Option Int → String
  | some s => "s" ++ toString s
  | none => "rnd"

def genStem (output_name : Option String) (seed : Option Int)
    (ts_short : String) : String :=
  (match output_name with
   | some n => if n = "" then "venice_image" else n
   | none => "venice_image") ++
    "_" ++ seedTag seed ++ "_" ++ ts_short ++ "_1"

/-- One `generate_image` call's filename-relevant inputs. `callIndex`
distinguishes distinct calls of the same process; it does not enter the
computed path. `tsShort` is the UTC wall-clock second at which the call
names its artifact. -/
structure GenCall where
  callIndex : Nat
  tsShort : String
  seed : Option Int
  output_name : Option String
  output_format : String
  output_dir : String
deriving DecidableEq, Repr

/-- Embeds the path computation of line 686: out_dir slash stem dot format. -/
def gen_image_path (c : GenCall) : String :=
  c.output_dir ++ "/" ++ genStem c.output_name c.seed c.tsShort ++ "." ++
    c.output_format

/-! ### API-key verification (`verify_api_key`, identical in
`venice_integration.py` lines 95-149 and `enhanced_venice_integration.py`
lines 77-131) -/

/-- The status-code interpretation of `verify_api_key`: 200 and 400 are
"API key is valid" successes, 401 is "Invalid API key", anything else is an
unexpected-status failure. -/
def verify_api_key_outcome (status : Nat) : Bool × String :=
  if status = 200 ∨ status = 400 then (true, "API key is valid")
  else if status = 401 then (false, "Invalid API key")
  else (false, "API returned unexpected status: " ++ toString status)

example : generate_image_dims "tall" none none =
    Except.ok { requestWidth := 768, requestHeight := 1024,
                metaWidth := none, metaHeight := none } := by rfl

example : verify_api_key_outcome 400 = (true, "API key is valid") := by rfl

/-! ### Sensitive-data redactor -/

mutual
/-- Modelled from the spec: no redaction routine exists under the
repository's source files; spec section 4.6 describes a pure `redact`
function over nested response structures. A value is a scalar (string,
integer, boolean or null), a sequence, or a string-keyed mapping. -/
inductive RVal where
  | str : String → RVal
  | int : Int → RVal
  | bool : Bool → RVal
  | null : RVal
  | arr : RList → RVal
  | obj : RObj → RVal
deriving DecidableEq, Repr

inductive RList where
  | nil : RList
  | cons : RVal → RList → RList
deriving DecidableEq, Repr

inductive RObj where
  | nil : RObj
  | cons : String → RVal → RObj → RObj
deriving DecidableEq, Repr
end

/-- Modelled from the spec: key normalisation — lowercased, with hyphens
and underscores stripped. -/
def normalizeKey (k : String) : String :=
  String.mk ((k.data.filter
    (fun c => c ≠ Char.ofNat 45 ∧ c ≠ Char.ofNat 95)).map Char.toLower)

/-- Modelled from the spec: the normalized sensitive-key set (the
normalized forms of api_key, api_keys, password, secret, token,
access_token, authorization, bearer, client_secret, private_key,
refresh_token). -/
def sensitiveKeys : List String :=
  ["apikey", "apikeys", "password", "secret", "token", "accesstoken",
   "authorization", "bearer", "clientsecret", "privatekey", "refreshtoken"]

def isSensitiveKey (k : String) : Bool :=
  sensitiveKeys.contains (normalizeKey k)

/-- Modelled from the spec: the fixed redaction marker. -/
def redactionMarker : String := "***REDACTED***"

mutual
/-- Modelled from the spec: `redact` replaces the value of every mapping
key whose normalized form is sensitive with the marker, recurses into
other mapping values and into sequences, and passes scalars through. -/
def redact : RVal → RVal
  | RVal.arr l => RVal.arr (redactList l)
  | RVal.obj o => RVal.obj (redactObj o)
  | v => v

def redactList : RList → RList
  | RList.nil => RList.nil
  | RList.cons v rest => RList.cons (redact v) (redactList rest)

def redactObj : RObj → RObj
  | RObj.nil => RObj.nil
  | RObj.cons k v rest =>
    if isSensitiveKey k then
      RObj.cons k (RVal.str redactionMarker) (redactObj rest)
    else
      RObj.cons k (redact v) (redactObj rest)
end

/-! ### Concrete fixtures used by counterexamples and witnesses -/

def exKeysC3 : List (String × String) := [("venice_legacy", "x"), ("openai", "y")]

def exProviderC3 : Provider :=
  { id := some "p", base_url := some "https://api.example",
    api_keys := some exKeysC3, models := [] }

def exStoreC3 : Store := [("p", exProviderC3)]

def exProviderC5 : Provider :=
  { id := some "p", base_url := none,
    api_keys := some [("openai", "k")], models := [ChatModel.mk "m1"] }

def exStoreC5 : Store := [("p", exProviderC5)]

def exProviderC4 : Provider :=
  { id := some "venice", base_url := some "https://api.venice.ai/api/v1",
    api_keys := some [("openai", mkPlaceholder "VENICE_API_KEY")],
    models := [ChatModel.mk "venice-uncensored"] }

def exStoreC4 : Store := [("venice", exProviderC4)]

def exProviderA : Provider :=
  { id := some "alpha", base_url := some "https://a.example",
    api_keys := some [("openai", "k")], models := [] }

def exLoadInputC2 : LoadInput :=
  LoadInput.parsed (some [RawRecord.record exProviderA, RawRecord.bad])

def exProviderNoId : Provider :=
  { id := none, base_url := some "https://b.example",
    api_keys := none, models := [] }

def exLoadInputC6 : LoadInput :=
  LoadInput.parsed (some [RawRecord.record exProviderNoId])

def mkGoodRecords (l : List (String × Provider)) : List RawRecord :=
  l.map (fun kv => RawRecord.record kv.2)

/-- Whether every listed provider id is a successful lookup key. -/
def allIdsResolvable (st : Store) : Bool :=
  (get_available_providers st).all
    (fun pid => (get_provider_info st pid).isSome)

def exGoodList : List (String × Provider) :=
  [("alpha", exProviderA),
   ("venice", exProviderC4)]

def genCallA : GenCall :=
  { callIndex := 0, tsShort := "20240101_120000", seed := none,
    output_name := none, output_format := "png", output_dir := "generated" }

def genCallB : GenCall :=
  { callIndex := 1, tsShort := "20240101_120000", seed := none,
    output_name := none, output_format := "png", output_dir := "generated" }

def mkGenCall (i : Nat) (ts : String) (seed : Option Int)
    (nm : Option String) (fmt dir : String) : GenCall where
  callIndex := i
  tsShort := ts
  seed := seed
  output_name := nm
  output_format := fmt
  output_dir := dir

/-- The spec's worked example input
`{api_key: "x", nested: {Token: "y"}, list: [{secret: "z"}]}`. -/
def exampleC9 : RVal :=
  RVal.obj (RObj.cons "api_key" (RVal.str "x")
    (RObj.cons "nested"
      (RVal.obj (RObj.cons "Token" (RVal.str "y") RObj.nil))
      (RObj.cons "list"
        (RVal.arr (RList.cons
          (RVal.obj (RObj.cons "secret" (RVal.str "z") RObj.nil))
          RList.nil))
        RObj.nil)))

/-- The spec's expected redacted output. -/
def exampleC9Redacted : RVal :=
  RVal.obj (RObj.cons "api_key" (RVal.str redactionMarker)
    (RObj.cons "nested"
      (RVal.obj (RObj.cons "Token" (RVal.str redactionMarker) RObj.nil))
      (RObj.cons "list"
        (RVal.arr (RList.cons
          (RVal.obj (RObj.cons "secret" (RVal.str redactionMarker)
            RObj.nil))
          RList.nil))
        RObj.nil)))

/-! ### Helper lemmas -/

theorem firstApiKey_eq_find? (l : List (String × String)) :
    firstApiKey l =
      (l.find? (fun kv => kv.1 == "openai" || kv.2 != "")).map Prod.snd := by
  induction l with
  | nil => rfl
  | cons kv rest ih =>
    obtain ⟨t, v⟩ := kv
    by_cases ht : t = "openai"
    · simp [firstApiKey, ht, List.find?_cons]
    · by_cases hv : v = ""
      · simp [firstApiKey, ht, hv, List.find?_cons, ih]
      · simp [firstApiKey, ht, hv, List.find?_cons]

theorem mkPlaceholder_data (name : String) :
    (mkPlaceholder name).data =
      dollarChar :: openBraceChar :: (name.data ++ [closeBraceChar]) := rfl

theorem mkPlaceholder_ne_empty (name : String) : mkPlaceholder name ≠ "" := by
  intro h
  have := congrArg String.data h
  rw [mkPlaceholder_data] at this
  simp at this

theorem resolve_mkPlaceholder (env : EnvMap) (name : String) :
    resolve_api_key env (mkPlaceholder name) =
      (match envGet env name with
       | some v => if v = "" then Except.error (envNotSetMsg name)
                   else Except.ok v
       | none => Except.error (envNotSetMsg name)) := by
  unfold resolve_api_key
  rw [mkPlaceholder_data]
  have htake : (dollarChar :: openBraceChar ::
      (name.data ++ [closeBraceChar])).take 2 =
      [dollarChar, openBraceChar] := rfl
  have hlast : (dollarChar :: openBraceChar ::
      (name.data ++ [closeBraceChar])).getLast? = some closeBraceChar := by
    have : dollarChar :: openBraceChar :: (name.data ++ [closeBraceChar]) =
        (dollarChar :: openBraceChar :: name.data) ++ [closeBraceChar] := by
      simp
    rw [this]
    exact List.getLast?_concat _
  rw [if_pos ⟨htake, hlast⟩]
  have hname : String.mk (((dollarChar :: openBraceChar ::
      (name.data ++ [closeBraceChar])).drop 2).dropLast) = name := by
    have : ((dollarChar :: openBraceChar ::
        (name.data ++ [closeBraceChar])).drop 2) =
        name.data ++ [closeBraceChar] := rfl
    rw [this, List.dropLast_concat]
  rw [hname]

/-! ### C1 — unknown provider fails before any network call -/

/-- C1: for every loaded configuration and every `provider_id` that is not a
key of the loaded provider set, `chat_completion` returns the
provider-not-found failure result (whose message mentions the provider id)
and the embedded HTTP-request effect is never invoked. -/
theorem c1_unknown_provider_fails (env : EnvMap) (st : Store)
    (provider_id model_id : String)
    (h : get_provider_info st provider_id = none) :
    chat_completion env st provider_id model_id =
      ChatOutcome.fail (providerNotFoundMsg provider_id) ∧
    provider_id.data <:+: (providerNotFoundMsg provider_id).data := by
  constructor
  · unfold chat_completion
    rw [h]
  · exact ⟨"Provider ".data, " not found in configuration".data, by
      simp [providerNotFoundMsg]⟩

theorem c1_witness :
    chat_completion [] [] "venice" "venice-uncensored" =
      ChatOutcome.fail (providerNotFoundMsg "venice") ∧
    "venice".data <:+: (providerNotFoundMsg "venice").data :=
  c1_unknown_provider_fails [] [] "venice" "venice-uncensored" rfl

/-! ### C3 — credential selection order -/

/-- C3 counterexample: a provider whose credential mapping stores `"y"`
under the key-type `openai` preceded by a non-empty entry: selection
returns the earlier non-empty value `"x"`, not the `openai` value. -/
theorem c3_counterexample :
    exProviderC3.api_keys = some [("venice_legacy", "x"), ("openai", "y")] ∧
    get_default_provider_api_key exStoreC3 "p" = some "x" ∧
    (get_default_provider_api_key exStoreC3 "p" == some "y") = false := by
  decide

/-- C3 amended: credential selection returns the value of the FIRST entry
in iteration order whose key-type is `openai` or whose value is non-empty;
an `openai` entry is preferred only over the entries after it. -/
theorem c3_first_match_wins (st : Store) (provider_id : String)
    (p : Provider) (api_keys : List (String × String))
    (hp : get_provider_info st provider_id = some p)
    (hk : p.api_keys = some api_keys) :
    get_default_provider_api_key st provider_id =
      (api_keys.find? (fun kv => kv.1 == "openai" || kv.2 != "")).map
        Prod.snd := by
  unfold get_default_provider_api_key
  rw [hp]
  dsimp only
  rw [hk]
  exact firstApiKey_eq_find? api_keys

theorem c3_witness :
    get_default_provider_api_key exStoreC3 "p" =
      (exKeysC3.find? (fun kv => kv.1 == "openai" || kv.2 != "")).map
        Prod.snd :=
  c3_first_match_wins exStoreC3 "p" exProviderC3 exKeysC3 rfl rfl

/-! ### C7 — metadata records the raw optional dimensions -/

/-- C7: with `aspect_ratio = "tall"` and omitted width/height the request
body carries the resolved 768 by 1024, while the metadata record's
`request_params` carries the raw `None` inputs — contradicting the spec and
the repository's own test
`tests/test_bug_fixes.py::test_metadata_stores_actual_dimensions`, which
requires 768/1024 in the metadata. -/
theorem c7_metadata_records_unresolved_dims :
    generate_image_dims "tall" none none =
      Except.ok { requestWidth := 768, requestHeight := 1024,
                  metaWidth := none, metaHeight := none } ∧
    ({ requestWidth := 768, requestHeight := 1024,
       metaWidth := none, metaHeight := none : GenDims }).metaWidth.isSome
      = false ∧
    ({ requestWidth := 768, requestHeight := 1024,
       metaWidth := none, metaHeight := none : GenDims }).metaHeight.isSome
      = false :=
  ⟨rfl, rfl, rfl⟩

/-! ### C10 — verify_api_key status classification -/

/-- C10: `verify_api_key` reports success with message "API key is valid"
exactly when the probe's HTTP status is 200 or 400; status 401 yields
failure with message "Invalid API key"; every other status yields
failure. -/
theorem c10_verify_status_classification :
    (∀ status : Nat, ((verify_api_key_outcome status).1 = true ↔
      (status = 200 ∨ status = 400))) ∧
    verify_api_key_outcome 200 = (true, "API key is valid") ∧
    verify_api_key_outcome 400 = (true, "API key is valid") ∧
    verify_api_key_outcome 401 = (false, "Invalid API key") := by
  refine ⟨?_, rfl, rfl, rfl⟩
  intro status
  unfold verify_api_key_outcome
  by_cases h : status = 200 ∨ status = 400
  · simp [h]
  · rw [if_neg h]
    by_cases h4 : status = 401
    · simp [h4]
    · rw [if_neg h4]
      simp [h]

theorem c10_witness :
    (verify_api_key_outcome 503).1 = true ↔ (503 = 200 ∨ 503 = 400) :=
  c10_verify_status_classification.1 503

/-! ### C4 — environment-placeholder credential resolution -/

/-- C4: for a stored credential value exactly of the form
`$`-open-brace-NAME-close-brace: if environment variable NAME is set to a
non-empty string `v`, credential resolution inside `chat_completion` yields
`v`; if NAME is unset, `chat_completion` returns the distinct
environment-variable-not-set failure and never reaches the HTTP request. -/
theorem c4_placeholder_resolution (env : EnvMap) (st : Store)
    (provider_id model_id name v : String) (p : Provider)
    (hp : get_provider_info st provider_id = some p)
    (hb : ∃ b, p.base_url = some b ∧ b ≠ "")
    (hk : get_default_provider_api_key st provider_id =
      some (mkPlaceholder name)) :
    ((envGet env name = some v ∧ v ≠ "") →
      resolve_api_key env (mkPlaceholder name) = Except.ok v) ∧
    (envGet env name = none →
      chat_completion env st provider_id model_id =
        ChatOutcome.fail (envNotSetMsg name)) := by
  constructor
  · rintro ⟨hv, hne⟩
    rw [resolve_mkPlaceholder, hv]
    simp [hne]
  · intro henv
    obtain ⟨b, hb1, hb2⟩ := hb
    unfold chat_completion
    rw [hp]
    dsimp only
    rw [hb1]
    dsimp only
    rw [if_neg hb2, hk]
    dsimp only
    rw [if_neg (mkPlaceholder_ne_empty name), resolve_mkPlaceholder, henv]

theorem c4_witness :
    ((envGet [("VENICE_API_KEY", "bar123")] "VENICE_API_KEY" =
        some "bar123" ∧ "bar123" ≠ "") →
      resolve_api_key [("VENICE_API_KEY", "bar123")]
        (mkPlaceholder "VENICE_API_KEY") = Except.ok "bar123") ∧
    (envGet [("VENICE_API_KEY", "bar123")] "VENICE_API_KEY" = none →
      chat_completion [("VENICE_API_KEY", "bar123")] exStoreC4 "venice"
        "venice-uncensored" = ChatOutcome.fail
          (envNotSetMsg "VENICE_API_KEY")) :=
  c4_placeholder_resolution [("VENICE_API_KEY", "bar123")] exStoreC4
    "venice" "venice-uncensored" "VENICE_API_KEY" "bar123" exProviderC4
    rfl ⟨"https://api.venice.ai/api/v1", rfl, by decide⟩ rfl

/-! ### C5 — unknown model failure -/

/-- C5 counterexample: `exStoreC5` holds a known provider `p` that lacks a
`base_url`; dispatching against it with the unknown model id `m2` returns
the no-base-url failure, not a model-not-found failure enumerating the
available model ids. -/
theorem c5_counterexample :
    (get_provider_info exStoreC5 "p").isSome = true ∧
    ((get_provider_models exStoreC5 "p").map (fun m => m.id)).contains "m2"
      = false ∧
    chat_completion [] exStoreC5 "p" "m2" =
      ChatOutcome.fail (noBaseUrlMsg "p") ∧
    (noBaseUrlMsg "p" == modelNotFoundMsg "m2" "p" ["m1"]) = false := by
  decide

/-- C5 amended: for a known provider with a truthy `base_url` and a
credential that resolves, every model id not among the provider's model ids
yields the model-not-found failure whose message carries the rendered list
of available model ids, before any network call. -/
theorem c5_unknown_model_fails (env : EnvMap) (st : Store)
    (provider_id model_id : String) (p : Provider)
    (base_url api_key_placeholder api_key : String)
    (hp : get_provider_info st provider_id = some p)
    (hb : p.base_url = some base_url) (hb2 : base_url ≠ "")
    (hk : get_default_provider_api_key st provider_id =
      some api_key_placeholder)
    (hk2 : api_key_placeholder ≠ "")
    (hr : resolve_api_key env api_key_placeholder = Except.ok api_key)
    (hm : ¬ model_id ∈ p.models.map (fun m => m.id)) :
    chat_completion env st provider_id model_id =
      ChatOutcome.fail (modelNotFoundMsg model_id provider_id
        (p.models.map (fun m => m.id))) ∧
    (reprStrList (p.models.map (fun m => m.id))).data <:+:
      (modelNotFoundMsg model_id provider_id
        (p.models.map (fun m => m.id))).data := by
  constructor
  · unfold chat_completion
    rw [hp]
    dsimp only
    rw [hb]
    dsimp only
    rw [if_neg hb2, hk]
    dsimp only
    rw [if_neg hk2, hr]
    dsimp only
    have hmodels : get_provider_models st provider_id = p.models := by
      unfold get_provider_models
      rw [hp]
    rw [hmodels, if_neg hm]
  · exact ⟨("Model " ++ model_id ++ " not available for provider " ++
      provider_id ++ ". Available: ").data, [], by
        simp [modelNotFoundMsg]⟩

theorem c5_witness :
    chat_completion [("VENICE_API_KEY", "bar123")] exStoreC4 "venice"
      "missing-model" = ChatOutcome.fail (modelNotFoundMsg "missing-model"
        "venice" (exProviderC4.models.map (fun m => m.id))) ∧
    (reprStrList (exProviderC4.models.map (fun m => m.id))).data <:+:
      (modelNotFoundMsg "missing-model" "venice"
        (exProviderC4.models.map (fun m => m.id))).data :=
  c5_unknown_model_fails [("VENICE_API_KEY", "bar123")] exStoreC4 "venice"
    "missing-model" exProviderC4 "https://api.venice.ai/api/v1"
    (mkPlaceholder "VENICE_API_KEY") "bar123" rfl rfl (by decide) rfl
    (mkPlaceholder_ne_empty "VENICE_API_KEY") rfl (by decide)

/-! ### C2 — load is not atomic across record processing -/

/-- C2 counterexample: a parsed configuration whose second provider record
raises during processing: the load returns failure, yet the store retains
the first record — it is partially populated, not empty. -/
theorem c2_counterexample :
    load_providers_from_config [] exLoadInputC2 =
      (false, [("alpha", exProviderA)]) ∧
    ((load_providers_from_config [] exLoadInputC2).2 == ([] : Store))
      = false := by
  decide

theorem loadLoop_snd (records : List RawRecord) : ∀ st : Store,
    (loadLoop st records).2 =
      insertGoodRecords st (records.takeWhile (fun r => !r.isBad)) := by
  induction records with
  | nil => intro st; rfl
  | cons r rest ih =>
    intro st
    cases r with
    | bad => rfl
    | record p =>
      cases hid : p.id with
      | none =>
        simp [loadLoop, hid, List.takeWhile, RawRecord.isBad,
          insertGoodRecords, ih st]
      | some pid =>
        by_cases hpe : pid = ""
        · simp [loadLoop, hid, hpe, List.takeWhile, RawRecord.isBad,
            insertGoodRecords, ih st]
        · simp [loadLoop, hid, hpe, List.takeWhile, RawRecord.isBad,
            insertGoodRecords, ih (dictInsert st pid p)]

/-- C2 amended: the loader is atomic only for failures raised before record
processing — a missing file, a parse or I/O error, or a missing top-level
providers key leave the store exactly as it was (empty when it was empty).
A failure while iterating the records returns failure but keeps every
record inserted before the failure point: the resulting store is always the
insertion-fold of the longest bad-free record prefix. -/
theorem c2_load_failure_state (st : Store) (records : List RawRecord) :
    load_providers_from_config st LoadInput.missing = (false, st) ∧
    load_providers_from_config st LoadInput.parseError = (false, st) ∧
    load_providers_from_config st (LoadInput.parsed none) = (false, st) ∧
    (load_providers_from_config st (LoadInput.parsed (some records))).2 =
      insertGoodRecords st (records.takeWhile (fun r => !r.isBad)) :=
  ⟨rfl, rfl, rfl, loadLoop_snd records st⟩

theorem c2_witness :
    load_providers_from_config [] LoadInput.missing = (false, []) ∧
    load_providers_from_config [] LoadInput.parseError = (false, []) ∧
    load_providers_from_config [] (LoadInput.parsed none) = (false, []) ∧
    (load_providers_from_config [] (LoadInput.parsed
      (some [RawRecord.record exProviderA, RawRecord.bad]))).2 =
      insertGoodRecords []
        ([RawRecord.record exProviderA, RawRecord.bad].takeWhile
          (fun r => !r.isBad)) :=
  c2_load_failure_state [] [RawRecord.record exProviderA, RawRecord.bad]

/-! ### C6 — provider listing after a successful load -/

/-- C6 counterexample: a configuration file declaring one provider record
(without an `id`) loads successfully, yet the provider-id listing is empty
— the listing does not return exactly N ids for every N-record file. -/
theorem c6_counterexample :
    List.length [RawRecord.record exProviderNoId] = 1 ∧
    load_providers_from_config [] exLoadInputC6 = (true, []) ∧
    get_available_providers
      (load_providers_from_config [] exLoadInputC6).2 = [] := by
  decide

theorem dictInsert_not_mem (st : Store) (k : String) (p : Provider)
    (h : ¬ k ∈ st.map Prod.fst) : dictInsert st k p = st ++ [(k, p)] := by
  unfold dictInsert
  rw [if_neg]
  intro hs
  rw [Option.isSome_iff_exists] at hs
  obtain ⟨kv, hkv⟩ := hs
  have hmem := List.mem_of_find?_eq_some hkv
  have hk : kv.1 = k := by
    have := List.find?_some hkv
    simpa using this
  exact h (hk ▸ List.mem_map_of_mem Prod.fst hmem)

theorem loadLoop_good (l : List (String × Provider)) : ∀ st : Store,
    (∀ kv ∈ l, kv.2.id = some kv.1 ∧ kv.1 ≠ "") →
    (∀ k ∈ l.map Prod.fst, ¬ k ∈ st.map Prod.fst) →
    (l.map Prod.fst).Nodup →
    loadLoop st (mkGoodRecords l) = (true, st ++ l) := by
  induction l with
  | nil => intro st _ _ _; simp [mkGoodRecords, loadLoop]
  | cons kv rest ih =>
    intro st hid hdisj hnd
    obtain ⟨k, p⟩ := kv
    obtain ⟨h1, h2⟩ := hid (k, p) (by simp)
    simp only at h1 h2
    rw [List.map_cons, List.nodup_cons] at hnd
    have hk : ¬ k ∈ st.map Prod.fst := hdisj k (by simp)
    have hstep : loadLoop st (mkGoodRecords ((k, p) :: rest)) =
        loadLoop (dictInsert st k p) (mkGoodRecords rest) := by
      simp [mkGoodRecords, loadLoop, h1, h2]
    rw [hstep, dictInsert_not_mem st k p hk]
    have hdisj' : ∀ k2 ∈ rest.map Prod.fst,
        ¬ k2 ∈ (st ++ [(k, p)]).map Prod.fst := by
      intro k2 hk2
      simp only [List.map_append, List.mem_append, List.map_cons,
        List.map_nil, List.mem_singleton]
      rintro (hin | hin)
      · exact hdisj k2 (by simp [hk2]) hin
      · exact hnd.1 (hin ▸ hk2)
    have hid' : ∀ kv ∈ rest, kv.2.id = some kv.1 ∧ kv.1 ≠ "" :=
      fun kv hkv => hid kv (List.mem_cons_of_mem _ hkv)
    rw [ih (st ++ [(k, p)]) hid' hdisj' hnd.2]
    simp

theorem get_provider_info_isSome (st : Store) (pid : String)
    (h : pid ∈ st.map Prod.fst) : (get_provider_info st pid).isSome := by
  unfold get_provider_info
  obtain ⟨kv, hkv, hfst⟩ := List.mem_map.mp h
  have hs : (List.find? (fun kv => kv.1 = pid) st).isSome :=
    List.find?_isSome.mpr ⟨kv, hkv, by simp [hfst]⟩
  obtain ⟨kv2, hkv2⟩ := Option.isSome_iff_exists.mp hs
  rw [hkv2]
  rfl

theorem allIdsResolvable_true (st : Store) : allIdsResolvable st = true := by
  unfold allIdsResolvable
  rw [List.all_eq_true]
  intro pid hpid
  simpa using get_provider_info_isSome st pid hpid

/-- C6 amended: when every declared record carries a non-empty `id` equal to
its key and the ids are pairwise distinct, a load into the empty store
succeeds with exactly those N records; the provider-id listing then returns
exactly N ids, in file order, and each listed id is a valid lookup key.
Records without an id (dropped silently) or duplicate ids (which collapse
into one dict entry) break the exact-N guarantee, as the counterexample
shows. -/
theorem c6_listing_after_load (l : List (String × Provider))
    (hid : ∀ kv ∈ l, kv.2.id = some kv.1 ∧ kv.1 ≠ "")
    (hnd : (l.map Prod.fst).Nodup) :
    load_providers_from_config [] (LoadInput.parsed (some (mkGoodRecords l)))
      = (true, l) ∧
    get_available_providers l = l.map Prod.fst ∧
    (get_available_providers l).length = (mkGoodRecords l).length ∧
    allIdsResolvable l = true := by
  refine ⟨?_, rfl, by simp [get_available_providers, mkGoodRecords],
    allIdsResolvable_true l⟩
  unfold load_providers_from_config
  dsimp only
  rw [loadLoop_good l [] hid (by simp) hnd]
  simp

theorem c6_witness :
    load_providers_from_config []
        (LoadInput.parsed (some (mkGoodRecords exGoodList)))
      = (true, exGoodList) ∧
    get_available_providers exGoodList = exGoodList.map Prod.fst ∧
    (get_available_providers exGoodList).length =
      (mkGoodRecords exGoodList).length ∧
    allIdsResolvable exGoodList = true :=
  c6_listing_after_load exGoodList (by decide) (by decide)

/-! ### C8 — artifact paths collide within one UTC second -/

/-- C8 counterexample: two distinct `generate_image` calls of the same
process (distinct call indices) in the same UTC second, both without an
explicit seed and with the same output directory, compute the SAME output
file path — the later call overwrites the earlier artifact. -/
theorem c8_counterexample :
    (genCallA == genCallB) = false ∧
    genCallA.seed = none ∧ genCallB.seed = none ∧
    genCallA.output_dir = genCallB.output_dir ∧
    gen_image_path genCallA = gen_image_path genCallB := by
  decide

theorem gen_image_path_ts_inj (output_dir : String)
    (output_name : Option String) (fmt ts1 ts2 : String) (i j : Nat)
    (h : gen_image_path (mkGenCall i ts1 none output_name fmt output_dir) =
      gen_image_path (mkGenCall j ts2 none output_name fmt output_dir)) :
    ts1 = ts2 := by
  have h' := congrArg String.data h
  dsimp only [gen_image_path, genStem, seedTag, mkGenCall] at h'
  simp only [String.data_append, List.append_assoc] at h'
  have h1 := List.append_cancel_left h'
  have h2 := List.append_cancel_left h1
  have h3 := List.append_cancel_left h2
  have h4 := List.append_cancel_left h3
  have h5 := List.append_cancel_left h4
  have h6 := List.append_cancel_left h5
  have h7 : ts1.data ++ ("_1".data ++ (".".data ++ fmt.data)) =
      ts2.data ++ ("_1".data ++ (".".data ++ fmt.data)) := h6
  have h8 : ts1.data ++ "_1".data ++ (".".data ++ fmt.data) =
      ts2.data ++ "_1".data ++ (".".data ++ fmt.data) := by
    simpa [List.append_assoc] using h7
  have h9 := List.append_cancel_right h8
  have h10 := List.append_cancel_right h9
  apply String.ext
  exact h10

/-- C8 amended: the stem guarantees distinct paths only across calls whose
second-granularity UTC timestamps differ (with the same output name, seed
tag, directory and format): distinct timestamps give distinct paths, but —
as the counterexample shows — two calls falling in the same UTC second with
no seed collide on the same path. -/
theorem c8_distinct_seconds_distinct_paths (output_dir : String)
    (output_name : Option String) (fmt ts1 ts2 : String) (i j : Nat)
    (h : (ts1 == ts2) = false) :
    (gen_image_path (mkGenCall i ts1 none output_name fmt output_dir) ==
      gen_image_path (mkGenCall j ts2 none output_name fmt output_dir))
      = false := by
  rw [beq_eq_false_iff_ne] at h ⊢
  intro hc
  exact h (gen_image_path_ts_inj output_dir output_name fmt ts1 ts2 i j hc)

theorem c8_witness :
    (gen_image_path
        (mkGenCall 0 "20240101_120000" none none "png" "generated") ==
      gen_image_path
        (mkGenCall 1 "20240101_120001" none none "png" "generated"))
      = false :=
  c8_distinct_seconds_distinct_paths "generated" none "png"
    "20240101_120000" "20240101_120001" 0 1 (by decide)

/-! ### C9 — the redactor and its idempotence -/

mutual
theorem redact_idem : ∀ v : RVal, redact (redact v) = redact v
  | RVal.str _ => rfl
  | RVal.int _ => rfl
  | RVal.bool _ => rfl
  | RVal.null => rfl
  | RVal.arr l => congrArg RVal.arr (redactList_idem l)
  | RVal.obj o => congrArg RVal.obj (redactObj_idem o)

theorem redactList_idem : ∀ l : RList,
    redactList (redactList l) = redactList l
  | RList.nil => rfl
  | RList.cons v rest => by
    rw [redactList, redactList, redact_idem v, redactList_idem rest]

theorem redactObj_idem : ∀ o : RObj, redactObj (redactObj o) = redactObj o
  | RObj.nil => rfl
  | RObj.cons k v rest => by
    by_cases hk : isSensitiveKey k
    · rw [redactObj, if_pos hk, redactObj, if_pos hk,
        redactObj_idem rest]
    · rw [redactObj, if_neg hk, redactObj, if_neg hk, redact_idem v,
        redactObj_idem rest]
end

/-- C9: the redactor (modelled from the spec — no redaction routine exists
in the repository's source) masks every sensitive-keyed value with the
fixed marker, recurses into nested mappings and sequences, passes scalars
through, behaves as the spec's worked example requires, and is idempotent:
`redact (redact v) = redact v` for every value `v`. -/
theorem c9_redact_idempotent (v : RVal) :
    redact (redact v) = redact v ∧
    redact exampleC9 = exampleC9Redacted ∧
    redact exampleC9Redacted = exampleC9Redacted := by
  refine ⟨redact_idem v, ?_, ?_⟩ <;> decide

theorem c9_witness :
    redact (redact exampleC9) = redact exampleC9 ∧
    redact exampleC9 = exampleC9Redacted ∧
    redact exampleC9Redacted = exampleC9Redacted :=
  c9_redact_idempotent exampleC9

end QwenVenice
